import Mathlib

/-!
Verification of the jkinfotech backend core: the ingestion job lifecycle /
retry engine (`src/ingestion/ingestion.service.ts`) and the authentication
token lifecycle (`src/auth/auth.service.ts`).

The TypeScript services are shallowly embedded: repository state is passed
explicitly, `Date` values are milliseconds as `Nat`, TypeScript `number`
delay arithmetic is `ℚ`, and the random draws of the simulation
(`Math.random()`) are explicit parameters so behaviour is a function of the
drawn values.
-/

namespace JkInfotech

/-! ## Ingestion: enums and configuration (ingestion.service.ts, dto, entity) -/

/-- `IngestionStatus` from `dto/ingestion-request.dto.ts`. -/
inductive IngestionStatus where
  | pending
  | processing
  | retrying
  | completed
  | failed
deriving DecidableEq, Repr

/-- `IngestionType` from `dto/ingestion-request.dto.ts`. -/
inductive IngestionType where
  | document
  | email
  | api
  | database
deriving DecidableEq, Repr

/-- `ErrorCategory` from `ingestion.service.ts`. -/
inductive ErrorCategory where
  | transient
  | permanent
  | unknown
deriving DecidableEq, Repr

/-- The `RetryConfig` interface. Delay fields are `ℚ` because the source
computes delays with fractional jitter on JavaScript numbers. -/
structure RetryConfig where
  maxRetries : Nat
  baseDelayMs : ℚ
  maxDelayMs : ℚ
  exponentialBackoff : Bool
deriving DecidableEq, Repr

/-- The default `retryConfig` of `IngestionService`. -/
def retryConfig : RetryConfig :=
  { maxRetries := 3
    baseDelayMs := 2000
    maxDelayMs := 30000
    exponentialBackoff := true }

/-- The string rendering of a status (the enum values are strings in the
source; used in interpolated messages). -/
def statusString : IngestionStatus → String
  | .pending => "pending"
  | .processing => "processing"
  | .retrying => "retrying"
  | .completed => "completed"
  | .failed => "failed"

/-- `IngestionService.shouldRetryError`: no retry once `attempts` reaches
`maxRetries`; otherwise transient and unknown errors are retried and
permanent ones are not. -/
def shouldRetryError (cfg : RetryConfig) (category : ErrorCategory) (attempts : Nat) : Bool :=
  if cfg.maxRetries ≤ attempts then
    false
  else if category = ErrorCategory.transient ∨ category = ErrorCategory.unknown then
    true
  else
    false

/-- `IngestionService.calculateRetryDelay`. The `Math.random()` draw is the
explicit parameter `r` (the source draws `r ∈ [0,1)`). -/
def calculateRetryDelay (cfg : RetryConfig) (attempt : Nat) (r : ℚ) : ℚ :=
  if !cfg.exponentialBackoff then
    cfg.baseDelayMs
  else
    let exponentialDelay := cfg.baseDelayMs * 2 ^ attempt
    let jitter := r * (3 / 10) * exponentialDelay
    min (exponentialDelay + jitter) cfg.maxDelayMs

/-! ## Claims C3 and C4: the retry policy engine -/

/-- **C3**: with the default configuration (`maxRetries = 3`),
`shouldRetryError` returns `false` whenever `attempts ≥ maxRetries`
regardless of the category (the exhaustion check takes precedence); below
the limit it returns `true` exactly for TRANSIENT and UNKNOWN and `false`
for PERMANENT. -/
theorem shouldRetryError_spec (category : ErrorCategory) (attempts : Nat) :
    (retryConfig.maxRetries ≤ attempts → shouldRetryError retryConfig category attempts = false)
    ∧ (attempts < retryConfig.maxRetries →
        shouldRetryError retryConfig category attempts =
          decide (category = ErrorCategory.transient ∨ category = ErrorCategory.unknown))
    ∧ (attempts < retryConfig.maxRetries → category = ErrorCategory.permanent →
        shouldRetryError retryConfig category attempts = false) := by
  refine ⟨fun h => ?_, fun h => ?_, fun h hc => ?_⟩
  · simp [shouldRetryError, h]
  · have h3 : ¬ (retryConfig.maxRetries ≤ attempts) := by omega
    cases category <;> simp [shouldRetryError, h3]
  · have h3 : ¬ (retryConfig.maxRetries ≤ attempts) := by omega
    subst hc; simp [shouldRetryError, h3]

/-- Witness for C3 at concrete inputs. -/
theorem shouldRetryError_spec_witness :
    shouldRetryError retryConfig ErrorCategory.transient 3 = false
    ∧ shouldRetryError retryConfig ErrorCategory.permanent 1 = false :=
  ⟨(shouldRetryError_spec ErrorCategory.transient 3).1 (by decide),
   (shouldRetryError_spec ErrorCategory.permanent 1).2.2 (by decide) rfl⟩

/-- **C4**: for attempt number `n ≥ 1` and jitter draw `r ∈ [0,1)`: with
backoff disabled the delay is the constant `baseDelayMs` (2000); with the
default (backoff-enabled) configuration the delay is exactly
`min (base·2^n + r·0.3·(base·2^n)) maxDelay`, jitter is only ever added
(never subtracted), and the result never exceeds `maxDelayMs` (30000). -/
theorem calculateRetryDelay_spec (n : Nat) (r : ℚ) (hn : 1 ≤ n) (hr0 : 0 ≤ r) (hr1 : r < 1) :
    calculateRetryDelay { retryConfig with exponentialBackoff := false } n r
        = retryConfig.baseDelayMs
    ∧ calculateRetryDelay retryConfig n r =
        min (retryConfig.baseDelayMs * 2 ^ n
              + r * (3 / 10) * (retryConfig.baseDelayMs * 2 ^ n)) retryConfig.maxDelayMs
    ∧ calculateRetryDelay retryConfig n 0 ≤ calculateRetryDelay retryConfig n r
    ∧ calculateRetryDelay retryConfig n r ≤ retryConfig.maxDelayMs := by
  have hbase : (0 : ℚ) ≤ 2000 * 2 ^ n := by positivity
  have hjit : (0 : ℚ) ≤ r * (3 / 10) * (2000 * 2 ^ n) :=
    mul_nonneg (mul_nonneg hr0 (by norm_num)) hbase
  refine ⟨rfl, rfl, ?_, ?_⟩
  · simp only [calculateRetryDelay, retryConfig, Bool.not_true, Bool.false_eq_true, if_false]
    refine min_le_min (by linarith) le_rfl
  · simp only [calculateRetryDelay, retryConfig, Bool.not_true, Bool.false_eq_true, if_false]
    exact min_le_right _ _

/-- Witness for C4 at `n = 1`, `r = 1/2`: the enabled-backoff delay is
`4000 + 600 = 4600` ms. -/
theorem calculateRetryDelay_spec_witness :
    calculateRetryDelay retryConfig 1 (1 / 2) =
      min (retryConfig.baseDelayMs * 2 ^ 1
            + (1 / 2 : ℚ) * (3 / 10) * (retryConfig.baseDelayMs * 2 ^ 1)) retryConfig.maxDelayMs
    ∧ calculateRetryDelay retryConfig 1 (1 / 2) ≤ retryConfig.maxDelayMs :=
  ⟨(calculateRetryDelay_spec 1 (1 / 2) (by decide) (by norm_num) (by norm_num)).2.1,
   (calculateRetryDelay_spec 1 (1 / 2) (by decide) (by norm_num) (by norm_num)).2.2.2⟩

/-! ## Ingestion: job records and operations

`IngestionJob` follows `entities/ingestion-job.entity.ts`. Timestamps are
milliseconds (`Nat`); nullable columns are `Option`. The free-form `jsonb`
maps (`metadata`, and the extra fields of `errorDetails`) are untyped
(`any`) in the source and are not needed by any claim, so only the
`category` component of `errorDetails` is modelled. The ORM-managed
`createdAt`/`updatedAt` columns are likewise omitted. -/

structure IngestionJob where
  id : String
  name : String
  description : Option String
  type : IngestionType
  status : IngestionStatus
  message : String
  documentId : Option String
  userId : String
  content : Option String
  retryAttempts : Nat
  lastErrorMessage : Option String
  errorCategory : Option ErrorCategory
  lastRetryTime : Option Nat
deriving DecidableEq, Repr

/-- The request body (`IngestionRequestDto`), restricted to the fields the
service reads. -/
structure IngestionRequestDto where
  name : String
  description : Option String
  type : IngestionType
  content : Option String
deriving DecidableEq, Repr

/-- The failure kinds thrown by the ingestion service
(`NotFoundException`, `BadRequestException`). -/
inductive IngestErr where
  | notFound (msg : String)
  | badRequest (msg : String)
deriving DecidableEq, Repr

/-- True exactly on a `NotFoundException` outcome. -/
def isNotFound : Except IngestErr IngestionJob → Bool
  | .error (.notFound _) => true
  | _ => false

/-- True exactly on a `BadRequestException` outcome. -/
def isBadRequest : Except IngestErr IngestionJob → Bool
  | .error (.badRequest _) => true
  | _ => false

/-- `IngestionService.triggerIngestion`: builds and persists the new PENDING
job. `newId` stands for the database-generated uuid. The source computes the
owner as `userId || 'system'`; JavaScript `||` falls through to `'system'`
for both an absent `userId` and the (falsy) empty string. -/
def triggerIngestion (requestDto : IngestionRequestDto) (userId : Option String)
    (newId : String) : IngestionJob :=
  { id := newId
    name := requestDto.name
    description := requestDto.description
    type := requestDto.type
    status := IngestionStatus.pending
    message := "Document ingestion is queued for processing"
    documentId := none
    userId := match userId with
      | none => "system"
      | some u => if u = "" then "system" else u
    content := requestDto.content
    retryAttempts := 0
    lastErrorMessage := none
    errorCategory := none
    lastRetryTime := none }

/-- `IngestionService.cancelIngestion`, applied to the result of the
`findOne` lookup (`none` when no job with that id exists). -/
def cancelIngestion (id : String) (found : Option IngestionJob) :
    Except IngestErr IngestionJob :=
  match found with
  | none =>
      Except.error (IngestErr.notFound
        ("Ingestion job with ID \"" ++ id ++ "\" not found"))
  | some job =>
      if job.status = IngestionStatus.completed ∨ job.status = IngestionStatus.failed then
        Except.error (IngestErr.badRequest
          ("Cannot cancel ingestion job with status \"" ++ statusString job.status ++ "\""))
      else
        Except.ok { job with
          status := IngestionStatus.failed
          message := "Ingestion job was canceled by the user" }

/-- `IngestionService.retryIngestion`, applied to the `findOne` result;
`now` is the wall clock used for `new Date()`. -/
def retryIngestion (id : String) (found : Option IngestionJob) (now : Nat) :
    Except IngestErr IngestionJob :=
  match found with
  | none =>
      Except.error (IngestErr.notFound
        ("Ingestion job with ID \"" ++ id ++ "\" not found"))
  | some job =>
      if job.status ≠ IngestionStatus.failed then
        Except.error (IngestErr.badRequest
          ("Cannot retry ingestion job with status \"" ++ statusString job.status
            ++ "\". Only failed jobs can be retried."))
      else
        Except.ok { job with
          retryAttempts := 0
          status := IngestionStatus.pending
          message := "Ingestion job has been queued for retry"
          lastRetryTime := some now }

/-- `IngestionService.getMessageForStatus`. -/
def getMessageForStatus : IngestionStatus → String
  | .pending => "Ingestion job is pending processing"
  | .processing => "Ingestion job is currently being processed"
  | .retrying => "Ingestion job is being retried after a failure"
  | .completed => "Ingestion job has been successfully completed"
  | .failed => "Ingestion job failed to process"

/-- The pools of simulated error messages of
`IngestionService.getSimulatedErrorMessage`. -/
def transientErrors : List String :=
  ["Connection timed out", "Service temporarily unavailable", "Rate limit exceeded",
   "Database connection error", "Network connectivity issue"]

def permanentErrors : List String :=
  ["Invalid document format", "Authorization failed", "Resource not found",
   "Unsupported file type", "Malformed content structure"]

def unknownErrors : List String :=
  ["Unexpected processing error", "Internal server error", "Undefined exception occurred",
   "Service unavailable", "Unknown parsing error"]

/-- `IngestionService.getSimulatedErrorMessage`; the random index draw
(`Math.floor(Math.random() * length)`, always in range) is the parameter
`k`, reduced modulo the pool length. -/
def getSimulatedErrorMessage (category : ErrorCategory) (k : Nat) : String :=
  match category with
  | .transient => transientErrors.getD (k % transientErrors.length) ""
  | .permanent => permanentErrors.getD (k % permanentErrors.length) ""
  | .unknown => unknownErrors.getD (k % unknownErrors.length) ""

/-- One attempt's random draws: the success draw (`rand > 0.3`), the error
category draw, the error-message index draw, and the synthesized document-id
suffix (`Math.random().toString(36).substring(2, 10)`). -/
structure SimDraw where
  success : Bool
  category : ErrorCategory
  msgIndex : Nat
  docSuffix : String
deriving DecidableEq, Repr

/-- The first half of `IngestionService.processIngestionAsync`: reload the
job and persist it with status PROCESSING. -/
def markProcessing (job : IngestionJob) : IngestionJob :=
  { job with
    status := IngestionStatus.processing
    message := getMessageForStatus IngestionStatus.processing }

/-- `IngestionService.simulateProcessingResult` as a function of the job,
the random draws `d`, and the wall clock `now`. -/
def simulateProcessingResult (cfg : RetryConfig) (job : IngestionJob) (d : SimDraw)
    (now : Nat) : IngestionJob :=
  if d.success then
    let done := { job with
      status := IngestionStatus.completed
      message := getMessageForStatus IngestionStatus.completed }
    if job.type = IngestionType.document then
      { done with documentId := some ("doc-" ++ d.docSuffix) }
    else
      done
  else
    let errorMessage := getSimulatedErrorMessage d.category d.msgIndex
    let recorded := { job with
      lastErrorMessage := some errorMessage
      errorCategory := some d.category }
    if shouldRetryError cfg d.category job.retryAttempts then
      { recorded with
        retryAttempts := job.retryAttempts + 1
        lastRetryTime := some now
        status := IngestionStatus.retrying
        message := "Retrying ingestion (attempt " ++ toString (job.retryAttempts + 1)
          ++ " of " ++ toString cfg.maxRetries ++ ")" }
    else
      { recorded with
        status := IngestionStatus.failed
        message := "Ingestion failed after " ++ toString job.retryAttempts
          ++ " retry attempts: " ++ errorMessage }

/-- One full asynchronous processing pass over a job: enter PROCESSING, then
simulate the outcome (`processIngestionAsync` without the I/O scaffolding). -/
def processAttempt (cfg : RetryConfig) (job : IngestionJob) (d : SimDraw)
    (now : Nat) : IngestionJob :=
  simulateProcessingResult cfg (markProcessing job) d now

/-- Iterate `processAttempt` over a sequence of draws (trigger processing,
then each scheduled retry). -/
def runAttempts (cfg : RetryConfig) (job : IngestionJob) (ds : List SimDraw)
    (now : Nat) : IngestionJob :=
  ds.foldl (fun j d => processAttempt cfg j d now) job

/-- The sequence of statuses observed after each attempt of `runAttempts`. -/
def statusTrace (cfg : RetryConfig) (job : IngestionJob) (ds : List SimDraw)
    (now : Nat) : List IngestionStatus :=
  match ds with
  | [] => []
  | d :: rest =>
      let j := processAttempt cfg job d now
      j.status :: statusTrace cfg j rest now

/-! ## Claims C8, C9, C10: cancel, manual retry, and trigger ownership -/

/-- **C8**: `cancelIngestion` fails with NotFound when no job exists; for an
existing job it fails with BadRequest exactly when the status is COMPLETED
or FAILED, and otherwise (PENDING, PROCESSING, RETRYING) succeeds, forcing
the status to FAILED. -/
theorem cancelIngestion_spec (id : String) (job : IngestionJob) :
    isNotFound (cancelIngestion id none) = true
    ∧ ((job.status = IngestionStatus.completed ∨ job.status = IngestionStatus.failed) →
        isBadRequest (cancelIngestion id (some job)) = true)
    ∧ (job.status ≠ IngestionStatus.completed → job.status ≠ IngestionStatus.failed →
        cancelIngestion id (some job) =
          Except.ok { job with
            status := IngestionStatus.failed
            message := "Ingestion job was canceled by the user" }) := by
  refine ⟨rfl, fun h => ?_, fun h1 h2 => ?_⟩
  · simp [cancelIngestion, isBadRequest, h]
  · simp [cancelIngestion, h1, h2]

/-- Witness for C8: a concrete PENDING job is canceled to FAILED, and a
concrete COMPLETED job is rejected with BadRequest. -/
theorem cancelIngestion_spec_witness :
    cancelIngestion "j1" (some
        { id := "j1", name := "n", description := none, type := IngestionType.document
          status := IngestionStatus.pending, message := "m", documentId := none
          userId := "u", content := none, retryAttempts := 0, lastErrorMessage := none
          errorCategory := none, lastRetryTime := none }) =
      Except.ok
        { id := "j1", name := "n", description := none, type := IngestionType.document
          status := IngestionStatus.failed
          message := "Ingestion job was canceled by the user", documentId := none
          userId := "u", content := none, retryAttempts := 0, lastErrorMessage := none
          errorCategory := none, lastRetryTime := none }
    ∧ isBadRequest (cancelIngestion "j2" (some
        { id := "j2", name := "n", description := none, type := IngestionType.document
          status := IngestionStatus.completed, message := "m", documentId := none
          userId := "u", content := none, retryAttempts := 0, lastErrorMessage := none
          errorCategory := none, lastRetryTime := none })) = true :=
  ⟨(cancelIngestion_spec "j1"
      { id := "j1", name := "n", description := none, type := IngestionType.document
        status := IngestionStatus.pending, message := "m", documentId := none
        userId := "u", content := none, retryAttempts := 0, lastErrorMessage := none
        errorCategory := none, lastRetryTime := none }).2.2 (by decide) (by decide),
   (cancelIngestion_spec "j2"
      { id := "j2", name := "n", description := none, type := IngestionType.document
        status := IngestionStatus.completed, message := "m", documentId := none
        userId := "u", content := none, retryAttempts := 0, lastErrorMessage := none
        errorCategory := none, lastRetryTime := none }).2.1 (Or.inl rfl)⟩

/-- **C9**: `retryIngestion` fails with NotFound when no job exists; for an
existing job it fails with BadRequest exactly when the status is not FAILED;
for a FAILED job it succeeds, resets `retryAttempts` to 0, sets the status
to PENDING and stamps `lastRetryTime`. -/
theorem retryIngestion_spec (id : String) (job : IngestionJob) (now : Nat) :
    isNotFound (retryIngestion id none now) = true
    ∧ (job.status ≠ IngestionStatus.failed →
        isBadRequest (retryIngestion id (some job) now) = true)
    ∧ (job.status = IngestionStatus.failed →
        retryIngestion id (some job) now =
          Except.ok { job with
            retryAttempts := 0
            status := IngestionStatus.pending
            message := "Ingestion job has been queued for retry"
            lastRetryTime := some now }) := by
  refine ⟨rfl, fun h => ?_, fun h => ?_⟩
  · simp [retryIngestion, isBadRequest, h]
  · simp [retryIngestion, h]

/-- Witness for C9: a concrete FAILED job is reset to PENDING with
`retryAttempts = 0` and a stamped `lastRetryTime`, and a PROCESSING job is
rejected with BadRequest. -/
theorem retryIngestion_spec_witness :
    retryIngestion "j3" (some
        { id := "j3", name := "n", description := none, type := IngestionType.api
          status := IngestionStatus.failed, message := "m", documentId := none
          userId := "u", content := none, retryAttempts := 3
          lastErrorMessage := some "e", errorCategory := some ErrorCategory.permanent
          lastRetryTime := none }) 777 =
      Except.ok
        { id := "j3", name := "n", description := none, type := IngestionType.api
          status := IngestionStatus.pending
          message := "Ingestion job has been queued for retry", documentId := none
          userId := "u", content := none, retryAttempts := 0
          lastErrorMessage := some "e", errorCategory := some ErrorCategory.permanent
          lastRetryTime := some 777 }
    ∧ isBadRequest (retryIngestion "j4" (some
        { id := "j4", name := "n", description := none, type := IngestionType.api
          status := IngestionStatus.processing, message := "m", documentId := none
          userId := "u", content := none, retryAttempts := 0, lastErrorMessage := none
          errorCategory := none, lastRetryTime := none }) 0) = true :=
  ⟨(retryIngestion_spec "j3"
      { id := "j3", name := "n", description := none, type := IngestionType.api
        status := IngestionStatus.failed, message := "m", documentId := none
        userId := "u", content := none, retryAttempts := 3
        lastErrorMessage := some "e", errorCategory := some ErrorCategory.permanent
        lastRetryTime := none } 777).2.2 rfl,
   (retryIngestion_spec "j4"
      { id := "j4", name := "n", description := none, type := IngestionType.api
        status := IngestionStatus.processing, message := "m", documentId := none
        userId := "u", content := none, retryAttempts := 0, lastErrorMessage := none
        errorCategory := none, lastRetryTime := none } 0).2.1 (by decide)⟩

/-- **C10**: the persisted job's owner is `'system'` when the caller
supplies no `userId` or the (falsy) empty string, and a non-empty `userId`
is stored unchanged. -/
theorem triggerIngestion_userId (requestDto : IngestionRequestDto) (newId : String) :
    (triggerIngestion requestDto none newId).userId = "system"
    ∧ (triggerIngestion requestDto (some "") newId).userId = "system"
    ∧ ∀ u : String, u ≠ "" → (triggerIngestion requestDto (some u) newId).userId = u := by
  refine ⟨rfl, rfl, fun u hu => ?_⟩
  simp [triggerIngestion, hu]

/-- Witness for C10 at a concrete non-empty user id. -/
theorem triggerIngestion_userId_witness :
    (triggerIngestion
        { name := "n", description := none, type := IngestionType.document, content := none }
        (some "alice") "id1").userId = "alice" :=
  (triggerIngestion_userId
      { name := "n", description := none, type := IngestionType.document, content := none }
      "id1").2.2 "alice" (by decide)

/-! ## Claim C2: the automatic retry loop -/

theorem runAttempts_nil (cfg : RetryConfig) (job : IngestionJob) (now : Nat) :
    runAttempts cfg job [] now = job := rfl

theorem runAttempts_cons (cfg : RetryConfig) (job : IngestionJob) (d : SimDraw)
    (ds : List SimDraw) (now : Nat) :
    runAttempts cfg job (d :: ds) now =
      runAttempts cfg (processAttempt cfg job d now) ds now := rfl

theorem statusTrace_cons (cfg : RetryConfig) (job : IngestionJob) (d : SimDraw)
    (ds : List SimDraw) (now : Nat) :
    statusTrace cfg job (d :: ds) now =
      (processAttempt cfg job d now).status ::
        statusTrace cfg (processAttempt cfg job d now) ds now := rfl

/-- A failed attempt with a retryable category and spare budget increments
the counter and lands on RETRYING. -/
theorem processAttempt_fail_retry (job : IngestionJob) (d : SimDraw) (now : Nat)
    (hd : d.success = false)
    (hc : d.category = ErrorCategory.transient ∨ d.category = ErrorCategory.unknown)
    (ha : job.retryAttempts < retryConfig.maxRetries) :
    (processAttempt retryConfig job d now).retryAttempts = job.retryAttempts + 1
    ∧ (processAttempt retryConfig job d now).status = IngestionStatus.retrying := by
  have h3 : ¬ (retryConfig.maxRetries ≤ job.retryAttempts) := Nat.not_le.mpr ha
  constructor <;>
    simp [processAttempt, markProcessing, simulateProcessingResult, shouldRetryError,
      hd, hc, h3]

/-- A failed attempt with the retry budget exhausted lands on FAILED and
leaves the counter unchanged, whatever the category. -/
theorem processAttempt_fail_exhausted (job : IngestionJob) (d : SimDraw) (now : Nat)
    (hd : d.success = false)
    (ha : retryConfig.maxRetries ≤ job.retryAttempts) :
    (processAttempt retryConfig job d now).retryAttempts = job.retryAttempts
    ∧ (processAttempt retryConfig job d now).status = IngestionStatus.failed := by
  constructor <;>
    simp [processAttempt, markProcessing, simulateProcessingResult, shouldRetryError,
      hd, ha]

/-- Characterization of a run of consecutive retryable failures from an
arbitrary starting counter `≤ maxRetries`. -/
theorem runAttempts_fail_char (ds : List SimDraw) :
    ∀ (job : IngestionJob) (now : Nat),
      job.retryAttempts ≤ retryConfig.maxRetries →
      (∀ d ∈ ds, d.success = false
        ∧ (d.category = ErrorCategory.transient ∨ d.category = ErrorCategory.unknown)) →
      (runAttempts retryConfig job ds now).retryAttempts
          = min (job.retryAttempts + ds.length) retryConfig.maxRetries
      ∧ (statusTrace retryConfig job ds now).count IngestionStatus.retrying
          = min (job.retryAttempts + ds.length) retryConfig.maxRetries - job.retryAttempts
      ∧ (ds ≠ [] → retryConfig.maxRetries < job.retryAttempts + ds.length →
          (runAttempts retryConfig job ds now).status = IngestionStatus.failed) := by
  induction ds with
  | nil =>
      intro job now ha _
      refine ⟨?_, ?_, fun hne _ => absurd rfl hne⟩
      · simp [runAttempts_nil]
        omega
      · simp [statusTrace, runAttempts_nil]
  | cons d ds ih =>
      intro job now ha hall
      obtain ⟨hd, hc⟩ := hall d (List.mem_cons_self d ds)
      have hall' : ∀ e ∈ ds, e.success = false
          ∧ (e.category = ErrorCategory.transient ∨ e.category = ErrorCategory.unknown) :=
        fun e he => hall e (List.mem_cons_of_mem d he)
      by_cases hlt : job.retryAttempts < retryConfig.maxRetries
      · obtain ⟨h1, h2⟩ := processAttempt_fail_retry job d now hd hc hlt
        have ih' := ih (processAttempt retryConfig job d now) now (by omega) hall'
        obtain ⟨ihA, ihC, ihF⟩ := ih'
        rw [h1] at ihA ihC ihF
        refine ⟨?_, ?_, ?_⟩
        · rw [runAttempts_cons, ihA]
          simp only [List.length_cons]
          omega
        · rw [statusTrace_cons, List.count_cons, ihC, h2]
          simp only [List.length_cons, beq_self_eq_true, if_true, eq_self_iff_true]
          omega
        · intro _ hbig
          cases ds with
          | nil =>
              simp only [List.length_cons, List.length_nil] at hbig
              omega
          | cons e es =>
              rw [runAttempts_cons]
              refine ihF (by simp) ?_
              simp only [List.length_cons] at hbig ⊢
              omega
      · have hge : retryConfig.maxRetries ≤ job.retryAttempts := Nat.not_lt.mp hlt
        obtain ⟨h1, h2⟩ := processAttempt_fail_exhausted job d now hd hge
        have ih' := ih (processAttempt retryConfig job d now) now (by omega) hall'
        obtain ⟨ihA, ihC, ihF⟩ := ih'
        rw [h1] at ihA ihC ihF
        refine ⟨?_, ?_, ?_⟩
        · rw [runAttempts_cons, ihA]
          simp only [List.length_cons]
          omega
        · rw [statusTrace_cons, List.count_cons, ihC, h2]
          have hb1 : (IngestionStatus.failed == IngestionStatus.retrying) = false := by decide
          have hb2 : (IngestionStatus.retrying == IngestionStatus.failed) = false := by decide
          simp only [List.length_cons, hb1, hb2, Bool.false_eq_true, if_false]
          omega
        · intro _ _
          cases ds with
          | nil => rw [runAttempts_cons, runAttempts_nil]; exact h2
          | cons e es =>
              rw [runAttempts_cons]
              refine ihF (by simp) ?_
              simp only [List.length_cons]
              omega

/-- **C2**: starting from `retryAttempts = 0`, after `N` consecutive
failures whose categories are all TRANSIENT or UNKNOWN the counter equals
`min N maxRetries` (with `maxRetries = 3`) and the job has passed through
RETRYING exactly `min N maxRetries` times, landing on FAILED once the
failures outnumber the budget; and a job whose counter already equals
`maxRetries` moves to FAILED on the next failure regardless of its
category. -/
theorem retryLoop_spec :
    (∀ (ds : List SimDraw) (job : IngestionJob) (now : Nat),
      job.retryAttempts = 0 →
      (∀ d ∈ ds, d.success = false
        ∧ (d.category = ErrorCategory.transient ∨ d.category = ErrorCategory.unknown)) →
      (runAttempts retryConfig job ds now).retryAttempts
          = min ds.length retryConfig.maxRetries
      ∧ (statusTrace retryConfig job ds now).count IngestionStatus.retrying
          = min ds.length retryConfig.maxRetries
      ∧ (retryConfig.maxRetries < ds.length →
          (runAttempts retryConfig job ds now).status = IngestionStatus.failed))
    ∧ (∀ (job : IngestionJob) (d : SimDraw) (now : Nat),
        job.retryAttempts = retryConfig.maxRetries → d.success = false →
        (processAttempt retryConfig job d now).status = IngestionStatus.failed) := by
  constructor
  · intro ds job now h0 hall
    obtain ⟨hA, hC, hF⟩ := runAttempts_fail_char ds job now (by omega) hall
    rw [h0] at hA hC hF
    refine ⟨by simpa using hA, by simpa using hC, fun hbig => ?_⟩
    refine hF ?_ (by omega)
    intro hnil
    subst hnil
    simp at hbig
  · intro job d now h0 hd
    exact (processAttempt_fail_exhausted job d now hd (by omega)).2

/-- Witness for C2: a concrete job subjected to four consecutive TRANSIENT
failures ends with `retryAttempts = 3`, passes through RETRYING exactly 3
times, and lands on FAILED. -/
theorem retryLoop_spec_witness :
    ((runAttempts retryConfig
        { id := "j5", name := "n", description := none, type := IngestionType.document
          status := IngestionStatus.pending, message := "m", documentId := none
          userId := "u", content := none, retryAttempts := 0, lastErrorMessage := none
          errorCategory := none, lastRetryTime := none }
        (List.replicate 4
          { success := false, category := ErrorCategory.transient, msgIndex := 0
            docSuffix := "x" }) 9).retryAttempts
      = min (List.replicate 4
          ({ success := false, category := ErrorCategory.transient, msgIndex := 0
             docSuffix := "x" } : SimDraw)).length retryConfig.maxRetries)
    ∧ ((statusTrace retryConfig
        { id := "j5", name := "n", description := none, type := IngestionType.document
          status := IngestionStatus.pending, message := "m", documentId := none
          userId := "u", content := none, retryAttempts := 0, lastErrorMessage := none
          errorCategory := none, lastRetryTime := none }
        (List.replicate 4
          { success := false, category := ErrorCategory.transient, msgIndex := 0
            docSuffix := "x" }) 9).count IngestionStatus.retrying
      = min (List.replicate 4
          ({ success := false, category := ErrorCategory.transient, msgIndex := 0
             docSuffix := "x" } : SimDraw)).length retryConfig.maxRetries)
    ∧ (retryConfig.maxRetries < (List.replicate 4
          ({ success := false, category := ErrorCategory.transient, msgIndex := 0
             docSuffix := "x" } : SimDraw)).length →
        (runAttempts retryConfig
        { id := "j5", name := "n", description := none, type := IngestionType.document
          status := IngestionStatus.pending, message := "m", documentId := none
          userId := "u", content := none, retryAttempts := 0, lastErrorMessage := none
          errorCategory := none, lastRetryTime := none }
        (List.replicate 4
          { success := false, category := ErrorCategory.transient, msgIndex := 0
            docSuffix := "x" }) 9).status = IngestionStatus.failed) :=
  retryLoop_spec.1
    (List.replicate 4
      { success := false, category := ErrorCategory.transient, msgIndex := 0
        docSuffix := "x" })
    { id := "j5", name := "n", description := none, type := IngestionType.document
      status := IngestionStatus.pending, message := "m", documentId := none
      userId := "u", content := none, retryAttempts := 0, lastErrorMessage := none
      errorCategory := none, lastRetryTime := none }
    9 rfl (by decide)

/-! ## Claim C7: the status transition edge set -/

/-- Modelled from the spec: the §4.2 status edge set the claim compares the
code's transitions against (`PENDING → PROCESSING`,
`PROCESSING → COMPLETED | RETRYING | FAILED`, `RETRYING → PROCESSING`,
`FAILED → PENDING` via manual retry). -/
def specEdge (s t : IngestionStatus) : Bool :=
  match s, t with
  | .pending, .processing => true
  | .processing, .completed => true
  | .processing, .retrying => true
  | .processing, .failed => true
  | .retrying, .processing => true
  | .failed, .pending => true
  | _, _ => false

/-- The §4.2 edge set extended with the two transitions cancellation
actually performs: `PENDING → FAILED` and `RETRYING → FAILED`. -/
def amendedEdge (s t : IngestionStatus) : Bool :=
  specEdge s t
    || (s == IngestionStatus.pending && t == IngestionStatus.failed)
    || (s == IngestionStatus.retrying && t == IngestionStatus.failed)

/-- **C7 counterexample**: canceling a concrete PENDING job succeeds and
moves it to FAILED, but `PENDING → FAILED` is not an edge of the §4.2 set,
so the claim as stated is false. -/
theorem statusEdges_counterexample :
    cancelIngestion "j6" (some
        { id := "j6", name := "n", description := none, type := IngestionType.email
          status := IngestionStatus.pending, message := "m", documentId := none
          userId := "u", content := none, retryAttempts := 0, lastErrorMessage := none
          errorCategory := none, lastRetryTime := none }) =
      Except.ok
        { id := "j6", name := "n", description := none, type := IngestionType.email
          status := IngestionStatus.failed
          message := "Ingestion job was canceled by the user", documentId := none
          userId := "u", content := none, retryAttempts := 0, lastErrorMessage := none
          errorCategory := none, lastRetryTime := none }
    ∧ specEdge IngestionStatus.pending IngestionStatus.failed = false := by
  constructor
  · rfl
  · rfl

/-- The statuses a simulated outcome can produce. -/
theorem simulateProcessingResult_status (cfg : RetryConfig) (job : IngestionJob)
    (d : SimDraw) (now : Nat) :
    (simulateProcessingResult cfg job d now).status = IngestionStatus.completed
    ∨ (simulateProcessingResult cfg job d now).status = IngestionStatus.retrying
    ∨ (simulateProcessingResult cfg job d now).status = IngestionStatus.failed := by
  unfold simulateProcessingResult
  split
  · split <;> simp
  · split <;> simp

/-- **C7 amended**: every status change performed by Trigger, Cancel,
manual Retry, and the asynchronous processing step (entered from PENDING or
RETRYING, the states the service schedules it from) follows the §4.2 edge
set extended with the cancellation edges `PENDING → FAILED` and
`RETRYING → FAILED`. -/
theorem statusTransitions_spec :
    (∀ (requestDto : IngestionRequestDto) (u : Option String) (newId : String),
        (triggerIngestion requestDto u newId).status = IngestionStatus.pending)
    ∧ (∀ (id : String) (job j : IngestionJob),
        cancelIngestion id (some job) = Except.ok j →
        amendedEdge job.status j.status = true)
    ∧ (∀ (id : String) (job j : IngestionJob) (now : Nat),
        retryIngestion id (some job) now = Except.ok j →
        amendedEdge job.status j.status = true)
    ∧ (∀ job : IngestionJob,
        job.status = IngestionStatus.pending ∨ job.status = IngestionStatus.retrying →
        amendedEdge job.status (markProcessing job).status = true)
    ∧ (∀ (job : IngestionJob) (d : SimDraw) (now : Nat),
        job.status = IngestionStatus.processing →
        amendedEdge job.status (simulateProcessingResult retryConfig job d now).status
          = true) := by
  refine ⟨fun _ _ _ => rfl, ?_, ?_, ?_, ?_⟩
  · intro id job j h
    by_cases hs : job.status = IngestionStatus.completed ∨ job.status = IngestionStatus.failed
    · simp [cancelIngestion, hs] at h
    · simp [cancelIngestion, hs] at h
      rw [← h]
      rcases job with ⟨_, _, _, _, s, _⟩
      cases s <;> simp_all <;> rfl
  · intro id job j now h
    by_cases hs : job.status = IngestionStatus.failed
    · simp [retryIngestion, hs] at h
      rw [← h, hs]
      rfl
    · simp [retryIngestion, hs] at h
  · intro job h
    rcases h with h | h <;> rw [h] <;> rfl
  · intro job d now h
    rw [h]
    rcases simulateProcessingResult_status retryConfig job d now with h' | h' | h' <;>
      rw [h'] <;> rfl

/-- Witness for the amended C7: the cancel clause applied to a concrete
PENDING job, the retry clause to a concrete FAILED job. -/
theorem statusTransitions_spec_witness :
    amendedEdge IngestionStatus.pending IngestionStatus.failed = true
    ∧ amendedEdge IngestionStatus.failed IngestionStatus.pending = true :=
  ⟨statusTransitions_spec.2.1 "j6"
      { id := "j6", name := "n", description := none, type := IngestionType.email
        status := IngestionStatus.pending, message := "m", documentId := none
        userId := "u", content := none, retryAttempts := 0, lastErrorMessage := none
        errorCategory := none, lastRetryTime := none }
      { id := "j6", name := "n", description := none, type := IngestionType.email
        status := IngestionStatus.failed
        message := "Ingestion job was canceled by the user", documentId := none
        userId := "u", content := none, retryAttempts := 0, lastErrorMessage := none
        errorCategory := none, lastRetryTime := none }
      rfl,
   statusTransitions_spec.2.2.1 "j7"
      { id := "j7", name := "n", description := none, type := IngestionType.email
        status := IngestionStatus.failed, message := "m", documentId := none
        userId := "u", content := none, retryAttempts := 2, lastErrorMessage := none
        errorCategory := none, lastRetryTime := none }
      { id := "j7", name := "n", description := none, type := IngestionType.email
        status := IngestionStatus.pending
        message := "Ingestion job has been queued for retry", documentId := none
        userId := "u", content := none, retryAttempts := 0, lastErrorMessage := none
        errorCategory := none, lastRetryTime := some 5 }
      5 rfl⟩

/-! ## Auth: refresh tokens and the session manager (auth.service.ts)

`RefreshToken` follows `entities/refresh-token.entity.ts`. The database
primary key (`uuid`) and the `uuidv4()` token value are modelled as natural
numbers drawn from a single fresh-value supply (`AuthState.fresh`): each
generated identifier is distinct from every previously generated one, which
is exactly the property the service relies on. The JWT signer/verifier is
an external collaborator; access tokens are opaque strings and
`getUserIdFromToken` is abstracted as a `decode` parameter. -/

structure RefreshToken where
  id : Nat
  token : Nat
  userId : String
  isRevoked : Bool
  expiresAt : Nat
deriving DecidableEq, Repr

/-- The state owned by `AuthService`: the refresh-token repository, the
fresh-value supply for generated ids/uuids, and the in-process blacklist of
access tokens. -/
structure AuthState where
  tokens : List RefreshToken
  fresh : Nat
  blacklist : List String
deriving DecidableEq, Repr

/-- `UnauthorizedException` with its message. -/
inductive AuthErr where
  | unauthorized (msg : String)
deriving DecidableEq, Repr

/-- `repository.save` on an entity previously loaded from the store: the
row with the same primary key is overwritten. -/
def saveExisting (tokens : List RefreshToken) (e : RefreshToken) : List RefreshToken :=
  tokens.map fun t => if t.id = e.id then e else t

/-- Seven days in milliseconds
(`expiresAt.setDate(expiresAt.getDate() + 7)`). -/
def sevenDaysMs : Nat := 7 * 24 * 60 * 60 * 1000

/-- `AuthService.createRefreshToken`: a token with a fresh uuid value and a
7-day expiry, inserted into the store. Returns the saved entity and the new
state. -/
def createRefreshToken (s : AuthState) (userId : String) (now : Nat) :
    RefreshToken × AuthState :=
  let rt : RefreshToken :=
    { id := s.fresh
      token := s.fresh + 1
      userId := userId
      isRevoked := false
      expiresAt := now + sevenDaysMs }
  (rt, { s with tokens := s.tokens ++ [rt], fresh := s.fresh + 2 })

/-- The observable refresh-credential part of `generateTokens`' result (the
access token is produced by the external JWT signer and holds no state of
this component). -/
structure TokenPair where
  refreshTokenValue : Nat
  userId : String
deriving DecidableEq, Repr

/-- `AuthService.generateTokens`, as its refresh-token effect. -/
def generateTokens (s : AuthState) (userId : String) (now : Nat) :
    TokenPair × AuthState :=
  let res := createRefreshToken s userId now
  ({ refreshTokenValue := res.1.token, userId := userId }, res.2)

/-- `AuthService.refreshToken`: look up the stored token by value; reject a
missing or revoked token; revoke-and-persist an expired token before
rejecting it; otherwise issue a fresh pair for the owning user and then
revoke the consumed token. Returns the outcome with the post-call state. -/
def refreshToken (s : AuthState) (value : Nat) (now : Nat) :
    Except AuthErr TokenPair × AuthState :=
  match s.tokens.find? (fun t => t.token == value) with
  | none => (Except.error (AuthErr.unauthorized "Invalid refresh token"), s)
  | some e =>
      if e.isRevoked then
        (Except.error (AuthErr.unauthorized "Invalid refresh token"), s)
      else if e.expiresAt < now then
        (Except.error (AuthErr.unauthorized "Refresh token expired"),
          { s with tokens := saveExisting s.tokens { e with isRevoked := true } })
      else
        let res := generateTokens s e.userId now
        (Except.ok res.1,
          { res.2 with tokens := saveExisting res.2.tokens { e with isRevoked := true } })

/-- `AuthService.revokeRefreshTokensForUser`: each token matching
`{ userId, isRevoked: false }` is saved back with `isRevoked = true`
(find-by-filter then save each, keyed on the primary id). -/
def revokeRefreshTokensForUser (tokens : List RefreshToken) (userId : String) :
    List RefreshToken :=
  tokens.map fun t =>
    if t.userId = userId ∧ t.isRevoked = false then { t with isRevoked := true } else t

/-- `AuthService.logout`: blacklist the access token unconditionally, then
revoke the subject's refresh tokens when the token decodes. `decode` is
`getUserIdFromToken` (the external JWT verifier returning the `sub` claim,
or `none` on any verification failure). The source guards the revocation
with JavaScript truthiness (`if (userId)`), so a `null` subject and the
(falsy) empty-string subject both skip it. -/
def logout (s : AuthState) (token : String) (decode : String → Option String) :
    AuthState × String :=
  let s1 := { s with blacklist := s.blacklist.insert token }
  match decode token with
  | none => (s1, "Logout successful")
  | some userId =>
      if userId = "" then (s1, "Logout successful")
      else ({ s1 with tokens := revokeRefreshTokensForUser s1.tokens userId },
        "Logout successful")

/-- `AuthService.isTokenBlacklisted`. -/
def isTokenBlacklisted (s : AuthState) (token : String) : Bool :=
  s.blacklist.contains token

/-- Store invariant maintained by the service: every stored primary key and
uuid value came from the fresh supply, and primary keys and uuid values are
duplicate-free. -/
def WF (s : AuthState) : Prop :=
  (∀ t ∈ s.tokens, t.id < s.fresh ∧ t.token < s.fresh)
  ∧ (s.tokens.map RefreshToken.id).Nodup
  ∧ (s.tokens.map RefreshToken.token).Nodup

/-! ### Store lemmas -/

/-- In a store with duplicate-free token values, the lookup by a member's
value finds exactly that member. -/
theorem find?_token_eq (l : List RefreshToken) (e : RefreshToken) (hmem : e ∈ l)
    (hnd : (l.map RefreshToken.token).Nodup) :
    l.find? (fun t => t.token == e.token) = some e := by
  induction l with
  | nil => cases hmem
  | cons a l ih =>
      rw [List.map_cons, List.nodup_cons] at hnd
      rcases List.mem_cons.mp hmem with rfl | hmem'
      · exact List.find?_cons_of_pos l (by simp)
      · have hne : (a.token == e.token) = false := by
          refine beq_eq_false_iff_ne.mpr fun hcontra => hnd.1 ?_
          rw [hcontra]
          exact List.mem_map_of_mem RefreshToken.token hmem'
        rw [List.find?_cons_of_neg l (by simp [hne]), ih hmem' hnd.2]

/-- Saving back an entity that shares its primary key with a stored one
keeps the updated entity in the store. -/
theorem mem_saveExisting_self (l : List RefreshToken) (e0 e : RefreshToken)
    (hmem : e0 ∈ l) (hid : e.id = e0.id) :
    e ∈ saveExisting l e := by
  unfold saveExisting
  refine List.mem_map.mpr ⟨e0, hmem, ?_⟩
  simp [hid.symm]

/-- Membership in an updated store: an element is either the saved entity or
an untouched original with a different primary key. -/
theorem mem_saveExisting (l : List RefreshToken) (e t : RefreshToken)
    (h : t ∈ saveExisting l e) :
    t = e ∨ (t ∈ l ∧ t.id ≠ e.id) := by
  obtain ⟨a, ha, hfa⟩ := List.mem_map.mp h
  by_cases hid : a.id = e.id
  · left
    rw [← hfa]
    simp [hid]
  · right
    simp only [hid, if_false] at hfa
    rw [← hfa]
    exact ⟨ha, hid⟩

/-- Saving back an entity that only flips `isRevoked` leaves the stored
token values unchanged. -/
theorem map_token_saveExisting (l : List RefreshToken) (e : RefreshToken)
    (h : ∀ t ∈ l, t.id = e.id → t.token = e.token) :
    (saveExisting l e).map RefreshToken.token = l.map RefreshToken.token := by
  unfold saveExisting
  rw [List.map_map]
  refine List.map_congr_left fun t ht => ?_
  by_cases hid : t.id = e.id
  · simp [hid, (h t ht hid).symm]
  · simp [hid]

/-- Appending an element whose image is fresh preserves duplicate-freedom of
the mapped list. -/
theorem nodup_map_append_fresh (l : List RefreshToken) (a : RefreshToken)
    (f : RefreshToken → Nat) (hnd : (l.map f).Nodup) (hfresh : ∀ t ∈ l, f t ≠ f a) :
    ((l ++ [a]).map f).Nodup := by
  rw [List.map_append, List.map_singleton]
  refine hnd.append (List.nodup_singleton _) ?_
  intro x hx hx'
  rw [List.mem_singleton] at hx'
  obtain ⟨t, ht, hft⟩ := List.mem_map.mp hx
  exact hfresh t ht (hft.trans hx')

/-- "Every stored token carrying the value `v` is revoked" — the observable
that makes a consumed or expired refresh token permanently unusable. -/
def ValueRevoked (s : AuthState) (v : Nat) : Prop :=
  ∀ t ∈ s.tokens, t.token = v → t.isRevoked = true

instance (s : AuthState) : Decidable (WF s) := by
  unfold WF
  infer_instance

instance (s : AuthState) (v : Nat) : Decidable (ValueRevoked s v) := by
  unfold ValueRevoked
  infer_instance

/-- Saving back a revoked copy of an entity cannot unrevoke a value. -/
theorem valueRevoked_saveRevoked (l : List RefreshToken) (e : RefreshToken) (v : Nat)
    (h : ∀ t ∈ l, t.token = v → t.isRevoked = true) :
    ∀ t ∈ saveExisting l { e with isRevoked := true }, t.token = v → t.isRevoked = true := by
  intro t ht htok
  rcases mem_saveExisting _ _ t ht with rfl | ⟨hl, _⟩
  · rfl
  · exact h t hl htok

/-- Inserting a token with a different value preserves `ValueRevoked`. -/
theorem valueRevoked_append (l : List RefreshToken) (a : RefreshToken) (v : Nat)
    (h : ∀ t ∈ l, t.token = v → t.isRevoked = true) (ha : a.token ≠ v) :
    ∀ t ∈ l ++ [a], t.token = v → t.isRevoked = true := by
  intro t ht htok
  rcases List.mem_append.mp ht with hl | hr
  · exact h t hl htok
  · rw [List.mem_singleton] at hr
    subst hr
    exact absurd htok ha

/-- A refresh call with the value of a token that is revoked throughout the
store fails with `Unauthorized` and leaves the state unchanged. -/
theorem refreshToken_revoked_fails (s : AuthState) (v now : Nat)
    (h : ValueRevoked s v) :
    (refreshToken s v now).1 = Except.error (AuthErr.unauthorized "Invalid refresh token")
    ∧ (refreshToken s v now).2 = s := by
  unfold refreshToken
  cases hf : s.tokens.find? (fun t => t.token == v) with
  | none => exact ⟨rfl, rfl⟩
  | some e =>
      have he := List.mem_of_find?_eq_some hf
      have hpred := List.find?_some hf
      have hrev : e.isRevoked = true := h e he (by simpa using hpred)
      simp [hrev]

/-- `generateTokens` (the state effect of login/registration/rotation)
preserves `ValueRevoked` for any already-issued value. -/
theorem valueRevoked_generateTokens (s : AuthState) (u : String) (n v : Nat)
    (h : ValueRevoked s v) (hv : v < s.fresh) :
    ValueRevoked (generateTokens s u n).2 v ∧ v < (generateTokens s u n).2.fresh := by
  refine ⟨?_, by simp [generateTokens, createRefreshToken]; omega⟩
  intro t ht htok
  exact valueRevoked_append s.tokens _ v h (by simp; omega) t ht htok

/-- `refreshToken` (with any presented value) preserves `ValueRevoked` for
any already-issued value. -/
theorem valueRevoked_refreshToken (s : AuthState) (w n v : Nat)
    (h : ValueRevoked s v) (hv : v < s.fresh) :
    ValueRevoked (refreshToken s w n).2 v ∧ v < (refreshToken s w n).2.fresh := by
  unfold refreshToken
  cases hf : s.tokens.find? (fun t => t.token == w) with
  | none => exact ⟨h, hv⟩
  | some e =>
      by_cases hrev : e.isRevoked
      · simp only [hrev, if_true]
        exact ⟨h, hv⟩
      · by_cases hexp : e.expiresAt < n
        · simp only [hrev, hexp, if_true, if_false, Bool.false_eq_true]
          exact ⟨valueRevoked_saveRevoked s.tokens e v h, hv⟩
        · simp only [hrev, hexp, if_false, Bool.false_eq_true]
          refine ⟨?_, by simp [generateTokens, createRefreshToken]; omega⟩
          intro t ht htok
          refine valueRevoked_saveRevoked _ e v ?_ t (by simpa [generateTokens, createRefreshToken] using ht) htok
          exact valueRevoked_append s.tokens _ v h (by simp; omega)

/-- `logout` preserves `ValueRevoked` for any already-issued value. -/
theorem valueRevoked_logout (s : AuthState) (tok : String)
    (decode : String → Option String) (v : Nat)
    (h : ValueRevoked s v) (hv : v < s.fresh) :
    ValueRevoked (logout s tok decode).1 v ∧ v < (logout s tok decode).1.fresh := by
  unfold logout
  cases decode tok with
  | none => exact ⟨h, hv⟩
  | some uid =>
      by_cases hu : uid = ""
      · simp only [hu, if_true]
        exact ⟨h, hv⟩
      · simp only [hu, if_false]
        refine ⟨?_, hv⟩
        intro t ht htok
        obtain ⟨a, ha, hfa⟩ := List.mem_map.mp ht
        by_cases hc : a.userId = uid ∧ a.isRevoked = false
        · rw [if_pos hc] at hfa
          rw [← hfa]
        · rw [if_neg hc] at hfa
          rw [← hfa] at htok ⊢
          exact h a ha htok

/-! ## Claim C5: expired refresh tokens are revoked before rejection -/

/-- **C5**: a refresh call with the value of a stored token that is found
(present in a duplicate-free store), not yet revoked, and expired
(`expiresAt` strictly in the past) fails with `Unauthorized`
("Refresh token expired"), and the post-call store holds that token with
`isRevoked = true` — the revocation is persisted, and no stored copy of the
value stays usable. -/
theorem refreshToken_expired_spec (s : AuthState) (e : RefreshToken) (now : Nat)
    (hwf : WF s) (hmem : e ∈ s.tokens) (hrev : e.isRevoked = false)
    (hexp : e.expiresAt < now) :
    (refreshToken s e.token now).1
        = Except.error (AuthErr.unauthorized "Refresh token expired")
    ∧ { e with isRevoked := true } ∈ (refreshToken s e.token now).2.tokens
    ∧ ValueRevoked (refreshToken s e.token now).2 e.token := by
  obtain ⟨hb, hids, hvals⟩ := hwf
  have hfind := find?_token_eq s.tokens e hmem hvals
  have hred : refreshToken s e.token now =
      (Except.error (AuthErr.unauthorized "Refresh token expired"),
        { s with tokens := saveExisting s.tokens { e with isRevoked := true } }) := by
    unfold refreshToken
    rw [hfind]
    simp [hrev, hexp]
  rw [hred]
  refine ⟨rfl, mem_saveExisting_self _ e _ hmem rfl, ?_⟩
  intro t ht htok
  rcases mem_saveExisting _ _ t ht with rfl | ⟨hl, hid⟩
  · rfl
  · exfalso
    have hte : t = e := List.inj_on_of_nodup_map hvals hl hmem htok
    rw [hte] at hid
    exact hid rfl

/-- Witness for C5: a concrete expired live token is rejected with
"Refresh token expired" and persisted revoked. -/
theorem refreshToken_expired_spec_witness :
    (refreshToken
        { tokens := [{ id := 0, token := 1, userId := "u1", isRevoked := false, expiresAt := 40 }]
          fresh := 2, blacklist := [] } 1 50).1
      = Except.error (AuthErr.unauthorized "Refresh token expired")
    ∧ ({ id := 0, token := 1, userId := "u1", isRevoked := true, expiresAt := 40 } : RefreshToken)
        ∈ (refreshToken
            { tokens := [{ id := 0, token := 1, userId := "u1", isRevoked := false, expiresAt := 40 }]
              fresh := 2, blacklist := [] } 1 50).2.tokens :=
  ⟨(refreshToken_expired_spec
      { tokens := [{ id := 0, token := 1, userId := "u1", isRevoked := false, expiresAt := 40 }]
        fresh := 2, blacklist := [] }
      { id := 0, token := 1, userId := "u1", isRevoked := false, expiresAt := 40 }
      50 (by decide) (by decide) rfl (by decide)).1,
   (refreshToken_expired_spec
      { tokens := [{ id := 0, token := 1, userId := "u1", isRevoked := false, expiresAt := 40 }]
        fresh := 2, blacklist := [] }
      { id := 0, token := 1, userId := "u1", isRevoked := false, expiresAt := 40 }
      50 (by decide) (by decide) rfl (by decide)).2.1⟩

/-! ## Claim C1: single-use refresh-token rotation -/

/-- **C1**: a refresh call with the value of a stored token that is live
(not revoked, not expired, in a well-formed store) succeeds and returns a
refresh value different from the consumed one; afterwards the consumed
token is persisted with `isRevoked = true`, exactly one new token has been
created, and the consumed value is revoked throughout the store — a
property under which any refresh call with that value fails with
`Unauthorized`, and which is preserved by every state-changing operation of
the service (refresh, logout, and token issuance), so every subsequent
refresh call with the old value fails with `Unauthorized`. -/
theorem refreshToken_rotation (s : AuthState) (e : RefreshToken) (now now2 : Nat)
    (hwf : WF s) (hmem : e ∈ s.tokens) (hrev : e.isRevoked = false)
    (hexp : ¬ e.expiresAt < now) :
    (refreshToken s e.token now).1
        = Except.ok { refreshTokenValue := s.fresh + 1, userId := e.userId }
    ∧ { e with isRevoked := true } ∈ (refreshToken s e.token now).2.tokens
    ∧ ValueRevoked (refreshToken s e.token now).2 e.token
    ∧ s.fresh + 1 ≠ e.token
    ∧ (refreshToken s e.token now).2.tokens.length = s.tokens.length + 1
    ∧ e.token < (refreshToken s e.token now).2.fresh
    ∧ (∀ s' : AuthState, ValueRevoked s' e.token →
        (refreshToken s' e.token now2).1
            = Except.error (AuthErr.unauthorized "Invalid refresh token")
        ∧ (refreshToken s' e.token now2).2 = s')
    ∧ (∀ (s' : AuthState) (w n : Nat),
        ValueRevoked s' e.token → e.token < s'.fresh →
        ValueRevoked (refreshToken s' w n).2 e.token
        ∧ e.token < (refreshToken s' w n).2.fresh)
    ∧ (∀ (s' : AuthState) (tok : String) (decode : String → Option String),
        ValueRevoked s' e.token → e.token < s'.fresh →
        ValueRevoked (logout s' tok decode).1 e.token
        ∧ e.token < (logout s' tok decode).1.fresh)
    ∧ (∀ (s' : AuthState) (u : String) (n : Nat),
        ValueRevoked s' e.token → e.token < s'.fresh →
        ValueRevoked (generateTokens s' u n).2 e.token
        ∧ e.token < (generateTokens s' u n).2.fresh) := by
  obtain ⟨hb, hids, hvals⟩ := hwf
  obtain ⟨hbid, hbtok⟩ := hb e hmem
  have hfind := find?_token_eq s.tokens e hmem hvals
  have hred : refreshToken s e.token now =
      (Except.ok { refreshTokenValue := s.fresh + 1, userId := e.userId },
        { s with
            tokens := saveExisting
              (s.tokens ++ [{ id := s.fresh, token := s.fresh + 1, userId := e.userId,
                              isRevoked := false, expiresAt := now + sevenDaysMs }])
              { e with isRevoked := true }
            fresh := s.fresh + 2 }) := by
    unfold refreshToken
    rw [hfind]
    simp [hrev, hexp, generateTokens, createRefreshToken]
  rw [hred]
  refine ⟨rfl, ?_, ?_, by omega, ?_, by show e.token < s.fresh + 2; omega, ?_, ?_, ?_, ?_⟩
  · exact mem_saveExisting_self _ e _ (List.mem_append_left _ hmem) rfl
  · intro t ht htok
    rcases mem_saveExisting _ _ t ht with rfl | ⟨hl, hid⟩
    · rfl
    · exfalso
      rcases List.mem_append.mp hl with hsl | hnew
      · have hte : t = e := List.inj_on_of_nodup_map hvals hsl hmem htok
        rw [hte] at hid
        exact hid rfl
      · rw [List.mem_singleton] at hnew
        subst hnew
        have h' : s.fresh + 1 = e.token := htok
        omega
  · show (saveExisting _ _).length = s.tokens.length + 1
    simp [saveExisting]
  · intro s' h'
    exact refreshToken_revoked_fails s' e.token now2 h'
  · intro s' w n h' hv'
    exact valueRevoked_refreshToken s' w n e.token h' hv'
  · intro s' tok decode h' hv'
    exact valueRevoked_logout s' tok decode e.token h' hv'
  · intro s' u n h' hv'
    exact valueRevoked_generateTokens s' u n e.token h' hv'

/-- Witness for C1: a concrete live token is rotated — the call returns the
fresh value 3 (≠ 1), the old token is persisted revoked, and the follow-up
refresh with the old value fails with "Invalid refresh token". -/
theorem refreshToken_rotation_witness :
    (refreshToken
        { tokens := [{ id := 0, token := 1, userId := "u1", isRevoked := false, expiresAt := 100 }]
          fresh := 2, blacklist := [] } 1 50).1
      = Except.ok { refreshTokenValue := 3, userId := "u1" }
    ∧ ({ id := 0, token := 1, userId := "u1", isRevoked := true, expiresAt := 100 } : RefreshToken)
        ∈ (refreshToken
            { tokens := [{ id := 0, token := 1, userId := "u1", isRevoked := false, expiresAt := 100 }]
              fresh := 2, blacklist := [] } 1 50).2.tokens
    ∧ (refreshToken
        (refreshToken
          { tokens := [{ id := 0, token := 1, userId := "u1", isRevoked := false, expiresAt := 100 }]
            fresh := 2, blacklist := [] } 1 50).2 1 60).1
      = Except.error (AuthErr.unauthorized "Invalid refresh token") :=
  ⟨(refreshToken_rotation
      { tokens := [{ id := 0, token := 1, userId := "u1", isRevoked := false, expiresAt := 100 }]
        fresh := 2, blacklist := [] }
      { id := 0, token := 1, userId := "u1", isRevoked := false, expiresAt := 100 }
      50 60 (by decide) (by decide) rfl (by decide)).1,
   (refreshToken_rotation
      { tokens := [{ id := 0, token := 1, userId := "u1", isRevoked := false, expiresAt := 100 }]
        fresh := 2, blacklist := [] }
      { id := 0, token := 1, userId := "u1", isRevoked := false, expiresAt := 100 }
      50 60 (by decide) (by decide) rfl (by decide)).2.1,
   ((refreshToken_rotation
      { tokens := [{ id := 0, token := 1, userId := "u1", isRevoked := false, expiresAt := 100 }]
        fresh := 2, blacklist := [] }
      { id := 0, token := 1, userId := "u1", isRevoked := false, expiresAt := 100 }
      50 60 (by decide) (by decide) rfl (by decide)).2.2.2.2.2.2.1
      (refreshToken
        { tokens := [{ id := 0, token := 1, userId := "u1", isRevoked := false, expiresAt := 100 }]
          fresh := 2, blacklist := [] } 1 50).2
      (refreshToken_rotation
        { tokens := [{ id := 0, token := 1, userId := "u1", isRevoked := false, expiresAt := 100 }]
          fresh := 2, blacklist := [] }
        { id := 0, token := 1, userId := "u1", isRevoked := false, expiresAt := 100 }
        50 60 (by decide) (by decide) rfl (by decide)).2.2.1).1⟩

/-! ## Claim C6: logout -/

/-- **C6 counterexample**: the source guards session teardown with
JavaScript truthiness (`if (userId)`), so when decoding yields the empty
subject `""` a live refresh token owned by `""` is left unrevoked, although
the claim requires every decoded subject's live tokens to be revoked. -/
theorem logout_counterexample :
    (logout
        { tokens := [{ id := 0, token := 1, userId := "", isRevoked := false, expiresAt := 99 }]
          fresh := 2, blacklist := [] } "tok" (fun _ => some "")).1.tokens
      = [{ id := 0, token := 1, userId := "", isRevoked := false, expiresAt := 99 }]
    ∧ ({ id := 0, token := 1, userId := "", isRevoked := true, expiresAt := 99 } : RefreshToken)
        ∉ (logout
            { tokens := [{ id := 0, token := 1, userId := "", isRevoked := false, expiresAt := 99 }]
              fresh := 2, blacklist := [] } "tok" (fun _ => some "")).1.tokens
    ∧ (logout
        { tokens := [{ id := 0, token := 1, userId := "", isRevoked := false, expiresAt := 99 }]
          fresh := 2, blacklist := [] } "tok" (fun _ => some "")).2
      = "Logout successful" := by
  refine ⟨rfl, ?_, rfl⟩
  decide

/-- **C6 amended**: `logout` blacklists the access token and reports
success unconditionally; when decoding fails — or yields the empty subject,
which the source's truthiness guard treats as a failure — no token is
touched; when decoding yields a non-empty subject `S`, every stored token
owned by `S` with `isRevoked = false` is persisted with `isRevoked = true`,
and tokens already revoked or owned by others are kept untouched. -/
theorem logout_spec (s : AuthState) (token : String) (decode : String → Option String) :
    token ∈ (logout s token decode).1.blacklist
    ∧ (logout s token decode).2 = "Logout successful"
    ∧ (decode token = none → (logout s token decode).1.tokens = s.tokens)
    ∧ (decode token = some "" → (logout s token decode).1.tokens = s.tokens)
    ∧ ∀ S, decode token = some S → S ≠ "" →
        ∀ t ∈ s.tokens,
          (t.userId = S → t.isRevoked = false →
            { t with isRevoked := true } ∈ (logout s token decode).1.tokens)
          ∧ ((t.isRevoked = true ∨ t.userId ≠ S) → t ∈ (logout s token decode).1.tokens) := by
  have hins : token ∈ s.blacklist.insert token := List.mem_insert_self _ _
  have hrN : ∀ (_ : decode token = none),
      logout s token decode
        = ({ s with blacklist := s.blacklist.insert token }, "Logout successful") := by
    intro h
    unfold logout
    rw [h]
  have hrE : ∀ (_ : decode token = some ""),
      logout s token decode
        = ({ s with blacklist := s.blacklist.insert token }, "Logout successful") := by
    intro h
    unfold logout
    rw [h]
    simp
  have hrS : ∀ S, decode token = some S → S ≠ "" →
      logout s token decode
        = ({ s with
              tokens := revokeRefreshTokensForUser s.tokens S
              blacklist := s.blacklist.insert token }, "Logout successful") := by
    intro S h hS
    unfold logout
    rw [h]
    simp [hS]
  have hbranch : ∀ P : AuthState × String → Prop,
      (∀ (_ : decode token = none), P ({ s with blacklist := s.blacklist.insert token },
        "Logout successful")) →
      (∀ S, decode token = some S → S = "" → P ({ s with blacklist := s.blacklist.insert token },
        "Logout successful")) →
      (∀ S, decode token = some S → S ≠ "" →
        P ({ s with
              tokens := revokeRefreshTokensForUser s.tokens S
              blacklist := s.blacklist.insert token }, "Logout successful")) →
      P (logout s token decode) := by
    intro P hN hE hS
    rcases hdec : decode token with _ | S
    · rw [hrN hdec]
      exact hN hdec
    · by_cases hs : S = ""
      · subst hs
        rw [hrE hdec]
        exact hE "" hdec rfl
      · rw [hrS S hdec hs]
        exact hS S hdec hs
  refine ⟨?_, ?_, fun h => by rw [hrN h], fun h => by rw [hrE h], ?_⟩
  · exact hbranch (fun p => token ∈ p.1.blacklist) (fun _ => hins) (fun _ _ _ => hins)
      (fun _ _ _ => hins)
  · exact hbranch (fun p => p.2 = "Logout successful") (fun _ => rfl) (fun _ _ _ => rfl)
      (fun _ _ _ => rfl)
  · intro S hdec hS t ht
    rw [hrS S hdec hS]
    constructor
    · intro hu hr
      refine List.mem_map.mpr ⟨t, ht, ?_⟩
      rw [if_pos ⟨hu, hr⟩]
    · intro hor
      have hnc : ¬ (t.userId = S ∧ t.isRevoked = false) := by
        rcases hor with h | h
        · intro hc
          rw [hc.2] at h
          cases h
        · intro hc
          exact h hc.1
      refine List.mem_map.mpr ⟨t, ht, ?_⟩
      rw [if_neg hnc]

/-- Witness for the amended C6: a concrete logout with a decoded non-empty
subject blacklists the access token and revokes the subject's live refresh
token. -/
theorem logout_spec_witness :
    "tok" ∈ (logout
        { tokens := [{ id := 0, token := 1, userId := "u1", isRevoked := false, expiresAt := 99 }]
          fresh := 2, blacklist := [] } "tok" (fun _ => some "u1")).1.blacklist
    ∧ ({ id := 0, token := 1, userId := "u1", isRevoked := true, expiresAt := 99 } : RefreshToken)
        ∈ (logout
            { tokens := [{ id := 0, token := 1, userId := "u1", isRevoked := false, expiresAt := 99 }]
              fresh := 2, blacklist := [] } "tok" (fun _ => some "u1")).1.tokens :=
  ⟨(logout_spec
      { tokens := [{ id := 0, token := 1, userId := "u1", isRevoked := false, expiresAt := 99 }]
        fresh := 2, blacklist := [] } "tok" (fun _ => some "u1")).1,
   ((logout_spec
      { tokens := [{ id := 0, token := 1, userId := "u1", isRevoked := false, expiresAt := 99 }]
        fresh := 2, blacklist := [] } "tok" (fun _ => some "u1")).2.2.2.2 "u1" rfl
      (by decide)
      { id := 0, token := 1, userId := "u1", isRevoked := false, expiresAt := 99 }
      (by decide)).1 rfl rfl⟩

end JkInfotech
